import Mathlib

/-!
Shallow embedding of the octree streaming core of the hifi repository:
the per-client send thread (`OctreeSendThread.cpp`) and the per-client
query-session state (`OctreeQueryNode.h`).

The embedding follows the source:
* `handlePacketSend` and `packetDistributor` are translated statement by
  statement from `assignment-client/src/octree/OctreeSendThread.cpp`.
* The external tree encoder `encodeTreeBitstream` (an out-of-scope
  collaborator) is an oracle: a stream of responses indexed by call number.
* Bodies declared in `OctreeQueryNode.h` but implemented in the
  `OctreeQueryNode.cpp` file that is not part of the source tree
  (`resetOctreePacket`, `shouldSuppressDuplicatePacket`,
  `incrementSequenceNumber`, `writeToPacket`, `dumpOutOfView`,
  `updateLastKnownViewFrustum`), and the `OctreeSceneStats` readiness
  machinery, are modelled from the specification sentences and so marked.
* Numeric constants that live in headers outside the source tree
  (`MAX_PACKET_SIZE`, `MAX_OCTREE_PACKET_DATA_SIZE`, interval counts, ...)
  are parameters of an `Env` record.
* Observable actions (datagram writes, encode calls, map erases, ...) are
  recorded in an event list so that theorems can count them.
-/

namespace Hifi

/-- Payload bytes, abstracted as a list of naturals. -/
abbrev Bytes := List Nat

/-- Stop reasons of the external encoder, from `EncodeBitstreamParams::reason`
in `libraries/octree/src/Octree.h`. -/
inductive StopReason where
  | UNKNOWN
  | DIDNT_FIT
  | NULL_NODE
  | TOO_DEEP
  | OUT_OF_JURISDICTION
  | LOD_SKIP
  | OUT_OF_VIEW
  | WAS_IN_VIEW
  | NO_CHANGE
  | OCCLUDED
deriving DecidableEq, Repr

/-- Observable actions of the send thread, recorded in order of occurrence. -/
inductive Event where
  | statsDatagram (len : Nat)
  | octreeDatagram (seq : Nat) (payload : Bytes)
  | piggybackDatagram (seq : Nat) (payload : Bytes)
  | encodeCall (elt : Nat) (fullScene : Bool) (useDelta : Bool)
  | mapErase
  | dumpOutOfView
  | bagDeleteAll
  | updateLastKnown
  | viewSentSet
  | specialPacket
  | sceneStartedEv (fullScene : Bool)
deriving DecidableEq, Repr

/-- Constants and per-call server-side inputs of one Distributor call.
The packet-size constants live in headers outside the source tree, so they
are parameters here. -/
structure Env where
  maxPacketSize : Nat
  maxOctreePacketDataSize : Nat
  packetHeaderSize : Nat
  sectionSize : Nat
  compressPadding : Nat
  minimumAttemptMorePacking : Nat
  reasonablePackingAttempts : Nat
  intervalsPerSecond : Nat
  serverPacketsPerClientPerInterval : Nat
  hasSpecialPacket : Bool
  specialPacketBytes : Nat
  root : Nat
  rootLastChanged : Nat
  now : Nat
deriving DecidableEq, Repr

/-- The packet-buffer/compression utility `_packetData` (an out-of-scope
collaborator); only the interface used by the send thread is modelled:
a target size, a compression setting and the accumulated content.  The
finalized form is identified with the accumulated content. -/
structure OctreePacketData where
  compressed : Bool
  targetSize : Nat
  content : Bytes
deriving DecidableEq, Repr

def OctreePacketData.hasContent (pd : OctreePacketData) : Bool :=
  !pd.content.isEmpty

def OctreePacketData.getFinalizedSize (pd : OctreePacketData) : Nat :=
  pd.content.length

def OctreePacketData.getFinalizedData (pd : OctreePacketData) : Bytes :=
  pd.content

/-- `changeSettings(compress, targetSize)` resets the buffer. -/
def OctreePacketData.changeSettings (pd : OctreePacketData) (compress : Bool)
    (target : Nat) : OctreePacketData :=
  ⟨compress, target, []⟩

/-- The per-client session state, from `OctreeQueryNode.h`.  View frustums
and the coverage map are opaque to the send thread and modelled as tokens
(`Nat` for frustums, a size count for the map).  The octree packet is the
payload past the fixed header. -/
structure OctreeQueryNode where
  isShuttingDown : Bool
  wantColor : Bool
  wantCompression : Bool
  wantDelta : Bool
  wantOcclusionCulling : Bool
  wantLowResMoving : Bool
  maxOctreePacketsPerSecond : Nat
  boundaryLevelAdjust : Nat
  viewFrustumChanging : Bool
  viewFrustumJustStoppedChanging : Bool
  lodChanged : Bool
  moveShouldDumpFlag : Bool
  viewSent : Bool
  currentViewFrustum : Nat
  lastKnownViewFrustum : Nat
  nodeBag : List Nat
  map : Nat
  content : Bytes
  octreePacketWaiting : Bool
  lastOctreePacket : Bytes
  duplicatePacketCount : Nat
  sequenceNumber : Nat
  statsReady : Bool
  statsMessage : Bytes
  lastTimeBagEmpty : Nat
  lastRootTimestamp : Nat
  currentPacketIsColor : Bool
  currentPacketIsCompressed : Bool
deriving DecidableEq, Repr

/-- `getPacketLength() = MAX_PACKET_SIZE - availableBytes`: header plus
accumulated payload. -/
def OctreeQueryNode.getPacketLength (env : Env) (n : OctreeQueryNode) : Nat :=
  env.packetHeaderSize + n.content.length

/-- `getAvailable()`: remaining room in the wire packet. -/
def OctreeQueryNode.getAvailable (env : Env) (n : OctreeQueryNode) : Nat :=
  env.maxPacketSize - n.getPacketLength env

def OctreeQueryNode.isPacketWaiting (n : OctreeQueryNode) : Bool :=
  n.octreePacketWaiting

/-- From `OctreeQueryNode.h`: the waiting packet format matches the client's
current wants. -/
def OctreeQueryNode.getCurrentPacketFormatMatches (n : OctreeQueryNode) : Bool :=
  (n.currentPacketIsColor == n.wantColor) &&
    (n.currentPacketIsCompressed == n.wantCompression)

/-- Modelled from the spec (body in the absent `OctreeQueryNode.cpp`):
`resetOctreePacket` resets the octree packet to just after its header and
re-locks the packet's color/compression flags to the client's current wants
("an OutboundPacket's color/compression flags are immutable while it holds
content"). -/
def OctreeQueryNode.resetOctreePacket (n : OctreeQueryNode) : OctreeQueryNode :=
  { n with content := [], octreePacketWaiting := false,
           currentPacketIsColor := n.wantColor,
           currentPacketIsCompressed := n.wantCompression }

/-- Modelled from the spec (body in the absent `OctreeQueryNode.cpp`):
`writeToPacket` appends bytes to the end of the packet. -/
def OctreeQueryNode.writeToPacket (n : OctreeQueryNode) (bytes : Bytes) :
    OctreeQueryNode :=
  { n with content := n.content ++ bytes, octreePacketWaiting := true }

/-- Modelled from the spec (body in the absent `OctreeQueryNode.cpp`):
`packetIsDuplicate` compares the finalized packet to the last transmitted
one, same length and bytes. -/
def OctreeQueryNode.packetIsDuplicate (n : OctreeQueryNode) : Bool :=
  n.content == n.lastOctreePacket

/-- Modelled from the spec (body in the absent `OctreeQueryNode.cpp`):
`shouldSuppressDuplicatePacket` compares the finalized packet to the last
transmitted one while the view is not actively changing; on match it
increments the duplicate counter and returns true; any differing payload
resets the counter to 0.  Returns the verdict and the updated session. -/
def OctreeQueryNode.shouldSuppressDuplicatePacket (n : OctreeQueryNode) :
    Bool × OctreeQueryNode :=
  if !n.viewFrustumChanging && n.packetIsDuplicate then
    (true, { n with duplicatePacketCount := n.duplicatePacketCount + 1 })
  else
    (false, { n with duplicatePacketCount := 0 })

/-- Result of one `handlePacketSend` call: updated session, the function's
return value `packetsSent`, the accumulated true-bytes/true-packets, and
the observable events. -/
structure SendOut where
  node : OctreeQueryNode
  packetsSent : Nat
  trueBytesSent : Nat
  truePacketsSent : Nat
  events : List Event
deriving DecidableEq, Repr

/-- `OctreeSendThread::handlePacketSend`, translated from
`OctreeSendThread.cpp` lines 121-250.  The sequence number carried by the
transmitted payload is the session's current one (it is embedded at packet
reset and only advances together with a transmission).  On a real send the
payload becomes the last-transmitted packet and the stats message, if it
was piggybacked or sent separately, is marked as sent (readiness machinery
of the absent `OctreeSceneStats` modelled from the spec). -/
def handlePacketSend (env : Env) (n0 : OctreeQueryNode) : SendOut :=
  if n0.isShuttingDown then
    ⟨n0, 0, 0, 0, []⟩
  else
    let sup := n0.shouldSuppressDuplicatePacket
    if sup.1 then
      ⟨sup.2.resetOctreePacket, 0, 0, 0, []⟩
    else
      let n := sup.2
      let seq := n.sequenceNumber
      let afterBranch : OctreeQueryNode × Bool × Nat × Nat × Nat × List Event :=
        if n.statsReady && !n.isShuttingDown then
          let statsLen := n.statsMessage.length
          let piggyBackSize := n.getPacketLength env + statsLen
          if piggyBackSize < env.maxPacketSize then
            ({ n with statsReady := false }, true, 0, 0, 0,
              [Event.piggybackDatagram seq n.content])
          else
            ({ n with statsReady := false }, true, statsLen, 1, 1,
              [Event.statsDatagram statsLen, Event.octreeDatagram seq n.content])
        else
          if n.isPacketWaiting && !n.isShuttingDown then
            (n, true, 0, 0, 0, [Event.octreeDatagram seq n.content])
          else
            (n, false, 0, 0, 0, [])
      let n1 := afterBranch.1
      let packetSent := afterBranch.2.1
      let tb := afterBranch.2.2.1
      let tp := afterBranch.2.2.2.1
      let ps := afterBranch.2.2.2.2.1
      let evs := afterBranch.2.2.2.2.2
      if packetSent then
        let n2 := { n1 with lastOctreePacket := n1.content,
                            sequenceNumber := n1.sequenceNumber + 1 }
        ⟨n2.resetOctreePacket, ps + 1, tb + n1.getPacketLength env, tp + 1, evs⟩
      else
        ⟨n1, ps, tb, tp, evs⟩

/-- One response of the external encoder `encodeTreeBitstream`: bytes
appended to the packet buffer, a stop reason, the children it re-enqueues
into the bag, and its coverage-map insertions. -/
structure EncodeOut where
  bytesOut : Bytes
  stop : StopReason
  inserted : List Nat
  mapAdd : Nat
deriving DecidableEq, Repr

/-- The external encoder as an oracle: a stream of responses indexed by
encode-call number. -/
abbrev Encoder := Nat → EncodeOut

/-- The running state of one `packetDistributor` call. -/
structure DistState where
  node : OctreeQueryNode
  pd : OctreePacketData
  packetsSentThisInterval : Nat
  trueBytesSent : Nat
  truePacketsSent : Nat
  events : List Event
  encodeCalls : Nat
deriving DecidableEq, Repr

/-- Fold one `handlePacketSend` result into the distributor state. -/
def applySend (st : DistState) (so : SendOut) : DistState :=
  { st with node := so.node,
            packetsSentThisInterval := st.packetsSentThisInterval + so.packetsSent,
            trueBytesSent := st.trueBytesSent + so.trueBytesSent,
            truePacketsSent := st.truePacketsSent + so.truePacketsSent,
            events := st.events ++ so.events }

/-- `isFullScene` exactly as computed at `OctreeSendThread.cpp` line 265. -/
def computeIsFullScene (viewFrustumChanged wantDelta justStopped lodChanged : Bool) :
    Bool :=
  ((!viewFrustumChanged || !wantDelta) && justStopped) || lodChanged

/-- The `lastNodeDidntFit` computation of `OctreeSendThread.cpp` lines
432-446: when packing a full-size packet the flag additionally requires the
buffer to have content; in the compressed extra-packing mode it does not. -/
def computeLastNodeDidntFit (targetSize maxDataSize : Nat) (hasContent : Bool)
    (bytesWritten : Nat) (stop : StopReason) : Bool :=
  if targetSize = maxDataSize then
    hasContent && bytesWritten == 0 && stop == StopReason.DIDNT_FIT
  else
    bytesWritten == 0 && stop == StopReason.DIDNT_FIT

/-- Lines 282-293: if the waiting packet's locked format no longer matches
the client's wants, flush (or reset) it and recompute the packing target. -/
def formatFlushStep (env : Env) (st : DistState) : DistState :=
  if !st.node.getCurrentPacketFormatMatches then
    let st1 :=
      if st.node.isPacketWaiting then applySend st (handlePacketSend env st.node)
      else { st with node := st.node.resetOctreePacket }
    let targetSize :=
      if st1.node.wantCompression then
        st1.node.getAvailable env - env.sectionSize
      else env.maxOctreePacketDataSize
    { st1 with pd := st1.pd.changeSettings st1.node.wantCompression targetSize }
  else st

/-- Lines 299-348: the scene-restart boundary.  On a view change, dump the
bag out of view when the move or an LOD change qualifies, and erase the
coverage map; when idle, stamp the bag-empty time; complete and restart the
scene statistics; flush via `handlePacketSend`; on a full scene delete the
whole bag; re-seed the bag with the tree root (the mainline
`dontRestartSceneOnMove = false` path).  `dumpOutOfView` and the statistics
readiness are modelled from the spec (bodies outside the source tree). -/
def sceneRestartStep (env : Env) (st : DistState) (viewFrustumChanged isFullScene : Bool) :
    DistState :=
  if viewFrustumChanged || st.node.nodeBag.isEmpty then
    let st1 :=
      if viewFrustumChanged then
        let sta :=
          if st.node.moveShouldDumpFlag || st.node.lodChanged then
            { st with node := { st.node with nodeBag := [] },
                      events := st.events ++ [Event.dumpOutOfView] }
          else st
        { sta with node := { sta.node with map := 0 },
                   events := sta.events ++ [Event.mapErase] }
      else st
    let st2 :=
      if !viewFrustumChanged && !st1.node.wantDelta then
        { st1 with node := { st1.node with lastTimeBagEmpty := env.now } }
      else st1
    let st3 :=
      { st2 with
          node := { st2.node with
                      statsReady := true,
                      lastRootTimestamp := env.rootLastChanged } }
    let st4 := applySend st3 (handlePacketSend env st3.node)
    let st5 :=
      if isFullScene then
        { st4 with node := { st4.node with nodeBag := [] },
                   events := st4.events ++ [Event.bagDeleteAll] }
      else st4
    let st6 := { st5 with events := st5.events ++ [Event.sceneStartedEv isFullScene] }
    { st6 with node := { st6.node with nodeBag := st6.node.nodeBag ++ [env.root] } }
  else st

/-- Lines 464-483: move the buffered bytes into the outbound packet,
flushing the prior wire unit first when the finalized segment would
overflow the available space; resets `extraPackingAttempts` to 0 on a
write.  Returns the new state and the new attempt counter. -/
def packAppendStep (env : Env) (st : DistState) (extra : Nat) :
    DistState × Nat :=
  if st.pd.hasContent then
    let writtenSize := st.pd.getFinalizedSize +
      (if st.node.currentPacketIsCompressed then env.sectionSize else 0)
    let sta :=
      if writtenSize > st.node.getAvailable env then
        applySend st (handlePacketSend env st.node)
      else st
    ({ sta with node := sta.node.writeToPacket st.pd.getFinalizedData }, 0)
  else (st, extra)

/-- Lines 487-515: decide `sendNow` (send unless compressed with enough
headroom and few packing attempts), send if so, and reset the packing
buffer to the next target size. -/
def sendNowStep (env : Env) (st1 : DistState) (extra1 : Nat) : DistState :=
  let sendNow := !(st1.node.currentPacketIsCompressed &&
    decide (env.minimumAttemptMorePacking ≤ st1.node.getAvailable env) &&
    decide (extra1 ≤ env.reasonablePackingAttempts))
  let afterSend : DistState × Nat :=
    if sendNow then
      let st2 := applySend st1 (handlePacketSend env st1.node)
      let targetSize :=
        if st2.node.wantCompression then st2.node.getAvailable env - env.sectionSize
        else env.maxOctreePacketDataSize
      (st2, targetSize)
    else
      (st1, st1.node.getAvailable env - env.sectionSize - env.compressPadding)
  let st2 := afterSend.1
  { st2 with pd := st2.pd.changeSettings st2.node.wantCompression afterSend.2 }

/-- Lines 463-516: after an encode (or an empty-bag pass), when the scene
completed or the last node did not fit, append the buffered bytes and run
the send-now decision.  Returns the new state and the new
`extraPackingAttempts`. -/
def sendPhase (env : Env) (st : DistState) (completedScene lastNodeDidntFit : Bool)
    (extra : Nat) : DistState × Nat :=
  if completedScene || lastNodeDidntFit then
    let fl := packAppendStep env st extra
    (sendNowStep env fl.1 fl.2, fl.2)
  else (st, extra)

/-- One iteration of the packing loop (lines 364-525).  Returns the state
together with the loop-carried `somethingToSend`, `completedScene` and
`extraPackingAttempts`. -/
def loopIter (env : Env) (enc : Encoder) (viewFrustumChanged isFullScene wantDelta : Bool)
    (st : DistState) (somethingToSend completedScene : Bool) (extra : Nat) :
    DistState × Bool × Bool × Nat :=
  match st.node.nodeBag with
  | subTree :: rest =>
      let out := enc st.encodeCalls
      let pd1 : OctreePacketData :=
        { st.pd with content := st.pd.content ++ out.bytesOut }
      let bag1 := rest ++ out.inserted
      let node1 :=
        { st.node with
            nodeBag := bag1,
            map := st.node.map +
              (if st.node.wantOcclusionCulling then out.mapAdd else 0) }
      let st1 : DistState :=
        { st with node := node1, pd := pd1,
                  events := st.events ++ [Event.encodeCall subTree isFullScene wantDelta],
                  encodeCalls := st.encodeCalls + 1 }
      let bytesWritten := out.bytesOut.length
      let completedScene1 := bag1.isEmpty
      let extra1 :=
        if pd1.targetSize = env.maxOctreePacketDataSize then extra else extra + 1
      let lastNodeDidntFit := computeLastNodeDidntFit pd1.targetSize
        env.maxOctreePacketDataSize pd1.hasContent bytesWritten out.stop
      let sent := sendPhase env st1 completedScene1 lastNodeDidntFit extra1
      (sent.1, somethingToSend, completedScene1, sent.2)
  | [] =>
      let sent := sendPhase env st completedScene false extra
      (sent.1, false, completedScene, sent.2)

/-- The while loop of lines 364-525, with explicit fuel.  The loop condition
is checked before each iteration exactly as in the source. -/
def sendLoopGo (env : Env) (enc : Encoder) (viewFrustumChanged isFullScene wantDelta : Bool)
    (maxPacketsPerInterval : Nat) :
    Nat → DistState → Bool → Bool → Nat → DistState
  | 0, st, _, _, _ => st
  | fuel + 1, st, somethingToSend, completedScene, extra =>
      if somethingToSend && st.packetsSentThisInterval < maxPacketsPerInterval &&
          !st.node.isShuttingDown then
        let next := loopIter env enc viewFrustumChanged isFullScene wantDelta st
          somethingToSend completedScene extra
        sendLoopGo env enc viewFrustumChanged isFullScene wantDelta
          maxPacketsPerInterval fuel next.1 next.2.1 next.2.2.1 next.2.2.2
      else st

/-- Lines 528-554: after the loop, send a pending special packet, and when
the bag ended empty snapshot the last-known view frustum, mark the view
sent and erase the coverage map. -/
def postLoop (env : Env) (st : DistState) : DistState :=
  let st1 :=
    if env.hasSpecialPacket && !st.node.isShuttingDown then
      { st with trueBytesSent := st.trueBytesSent + env.specialPacketBytes,
                truePacketsSent := st.truePacketsSent + 1,
                packetsSentThisInterval := st.packetsSentThisInterval + 1,
                events := st.events ++ [Event.specialPacket] }
    else st
  if st1.node.nodeBag.isEmpty then
    { st1 with
        node := { st1.node with
                    lastKnownViewFrustum := st1.node.currentViewFrustum,
                    viewSent := true,
                    map := 0 },
        events := st1.events ++
          [Event.updateLastKnown, Event.viewSentSet, Event.mapErase] }
  else st1

/-- The client-side packet budget of lines 359-360:
`min(max(1, clientPPS / intervalsPerSecond), serverPacketsPerClientPerInterval)`. -/
def maxPacketsPerInterval (env : Env) (n : OctreeQueryNode) : Nat :=
  min (max 1 (n.maxOctreePacketsPerSecond / env.intervalsPerSecond))
    env.serverPacketsPerClientPerInterval

/-- Lines 351-556: the whole packing-and-sending block, guarded by the bag
being non-empty. -/
def sendLoopBlock (env : Env) (enc : Encoder) (fuel : Nat) (st : DistState)
    (viewFrustumChanged isFullScene wantDelta : Bool) : DistState :=
  if !st.node.nodeBag.isEmpty then
    let st1 := sendLoopGo env enc viewFrustumChanged isFullScene wantDelta
      (maxPacketsPerInterval env st.node) fuel st true false 0
    postLoop env st1
  else st

/-- The distributor state after the pre-loop phase (lines 253-348):
format-mismatch flush followed by the scene-restart boundary. -/
def distAfterPhase1 (env : Env) (node : OctreeQueryNode) (pd : OctreePacketData)
    (viewFrustumChanged : Bool) : DistState :=
  let isFullScene := computeIsFullScene viewFrustumChanged node.wantDelta
    node.viewFrustumJustStoppedChanging node.lodChanged
  let st0 : DistState := ⟨node, pd, 0, 0, 0, [], 0⟩
  sceneRestartStep env (formatFlushStep env st0) viewFrustumChanged isFullScene

/-- `OctreeSendThread::packetDistributor`, composed from the phases above.
Exits immediately when the session is shutting down. -/
def packetDistributor (env : Env) (enc : Encoder) (fuel : Nat)
    (node : OctreeQueryNode) (pd : OctreePacketData) (viewFrustumChanged : Bool) :
    DistState :=
  if node.isShuttingDown then ⟨node, pd, 0, 0, 0, [], 0⟩
  else
    let isFullScene := computeIsFullScene viewFrustumChanged node.wantDelta
      node.viewFrustumJustStoppedChanging node.lodChanged
    let wantDelta := viewFrustumChanged && node.wantDelta
    sendLoopBlock env enc fuel (distAfterPhase1 env node pd viewFrustumChanged)
      viewFrustumChanged isFullScene wantDelta

/-- Datagrams carrying an octree payload (alone or piggybacked on stats). -/
def isOctreePayload : Event → Bool
  | Event.octreeDatagram _ _ => true
  | Event.piggybackDatagram _ _ => true
  | _ => false

/-- Number of transmitted octree payloads in an event list. -/
def octreePayloadCount (evs : List Event) : Nat :=
  (evs.filter isOctreePayload).length

/-- Any datagram written to the transport. -/
def isDatagram : Event → Bool
  | Event.octreeDatagram _ _ => true
  | Event.piggybackDatagram _ _ => true
  | Event.statsDatagram _ => true
  | Event.specialPacket => true
  | _ => false

/-- Number of datagrams written to the transport in an event list. -/
def datagramCount (evs : List Event) : Nat :=
  (evs.filter isDatagram).length

/-- Sequence numbers of transmitted octree payloads, in transmission order. -/
def sentSeqs (evs : List Event) : List Nat :=
  evs.filterMap fun e =>
    match e with
    | Event.octreeDatagram s _ => some s
    | Event.piggybackDatagram s _ => some s
    | _ => none

/-! Concrete instances used by counterexamples and witnesses. -/

/-- A small concrete environment: 100-byte wire packets with a 10-byte
header, 80-byte packing target, 60 intervals per second, a server cap of
one packet per client per interval, and no special packet pending. -/
def env0 : Env :=
  ⟨100, 80, 10, 2, 3, 5, 3, 60, 1, false, 0, 0, 0, 0⟩

/-- A session holding an almost-full uncompressed outbound packet (88
payload bytes of a 100-byte packet, 2 bytes available) and one queued node;
client requests 60 packets per second, so the per-interval budget is 1. -/
def overflowNode : OctreeQueryNode :=
  { isShuttingDown := false, wantColor := true, wantCompression := false,
    wantDelta := false, wantOcclusionCulling := false, wantLowResMoving := false,
    maxOctreePacketsPerSecond := 60, boundaryLevelAdjust := 0,
    viewFrustumChanging := false, viewFrustumJustStoppedChanging := false,
    lodChanged := false, moveShouldDumpFlag := false, viewSent := false,
    currentViewFrustum := 0, lastKnownViewFrustum := 0, nodeBag := [5],
    map := 0, content := List.replicate 88 7, octreePacketWaiting := true,
    lastOctreePacket := [1], duplicatePacketCount := 0, sequenceNumber := 100,
    statsReady := false, statsMessage := [], lastTimeBagEmpty := 0,
    lastRootTimestamp := 0, currentPacketIsColor := true,
    currentPacketIsCompressed := false }

/-- An uncompressed, empty packing buffer with the full-size target. -/
def pd0 : OctreePacketData := ⟨false, 80, []⟩

/-- An encoder that writes three bytes and re-enqueues nothing. -/
def encSmall : Encoder := fun _ => ⟨[9, 9, 9], StopReason.UNKNOWN, [], 0⟩

/-- An idle session: empty visit bag, empty outbound packet equal to the
last transmitted (empty) payload, view not changing. -/
def idleNode : OctreeQueryNode :=
  { overflowNode with nodeBag := [], content := [], octreePacketWaiting := false,
                      lastOctreePacket := [] }

/-- An encoder that finds nothing to send and re-enqueues nothing. -/
def encIdle : Encoder := fun _ => ⟨[], StopReason.NO_CHANGE, [], 0⟩

/-- An idle session with a non-empty coverage map, used to observe map
erasure on a non-qualifying view change. -/
def mapNode : OctreeQueryNode := { idleNode with map := 5 }

/-! Basic facts about `shouldSuppressDuplicatePacket` and `handlePacketSend`. -/

theorem suppress_snd_fields (n : OctreeQueryNode) :
    (n.shouldSuppressDuplicatePacket).2.statsReady = n.statsReady ∧
    (n.shouldSuppressDuplicatePacket).2.sequenceNumber = n.sequenceNumber ∧
    (n.shouldSuppressDuplicatePacket).2.octreePacketWaiting = n.octreePacketWaiting ∧
    (n.shouldSuppressDuplicatePacket).2.content = n.content ∧
    (n.shouldSuppressDuplicatePacket).2.isShuttingDown = n.isShuttingDown ∧
    (n.shouldSuppressDuplicatePacket).2.statsMessage = n.statsMessage := by
  unfold OctreeQueryNode.shouldSuppressDuplicatePacket
  split <;> simp

theorem handlePacketSend_suppressed (env : Env) (n : OctreeQueryNode)
    (hs : n.isShuttingDown = false)
    (h : (n.shouldSuppressDuplicatePacket).1 = true) :
    handlePacketSend env n =
      ⟨(n.shouldSuppressDuplicatePacket).2.resetOctreePacket, 0, 0, 0, []⟩ := by
  unfold handlePacketSend
  simp [hs, h]

/-- C4: when `shouldSuppressDuplicatePacket()` holds (duplicate finalized
payload, view not actively changing) and the session is live, the call
discards the packet — outbound packet reset to empty and not waiting —
returns 0 and writes no datagram to the transport. -/
theorem suppressed_send_discards (env : Env) (n : OctreeQueryNode)
    (hs : n.isShuttingDown = false)
    (h : (n.shouldSuppressDuplicatePacket).1 = true) :
    (handlePacketSend env n).packetsSent = 0 ∧
    (handlePacketSend env n).events = [] ∧
    (handlePacketSend env n).node.content = [] ∧
    (handlePacketSend env n).node.octreePacketWaiting = false := by
  rw [handlePacketSend_suppressed env n hs h]
  simp [OctreeQueryNode.resetOctreePacket]

/-- C4 witness: a concrete suppressed call. -/
theorem suppressed_send_discards_witness :
    (handlePacketSend env0 idleNode).packetsSent = 0 ∧
    (handlePacketSend env0 idleNode).events = [] ∧
    (handlePacketSend env0 idleNode).node.content = [] ∧
    (handlePacketSend env0 idleNode).node.octreePacketWaiting = false :=
  suppressed_send_discards env0 idleNode (by decide) (by decide)

/-- C10: the duplicate-suppression check precedes the stats-ready check:
whenever `shouldSuppressDuplicatePacket()` holds, the call transmits
nothing — in particular a pending scene-statistics message is not sent and
its readiness is left unchanged (not marked sent). -/
theorem suppression_preempts_stats (env : Env) (n : OctreeQueryNode)
    (h : (n.shouldSuppressDuplicatePacket).1 = true) :
    (handlePacketSend env n).events = [] ∧
    (handlePacketSend env n).node.statsReady = n.statsReady ∧
    (handlePacketSend env n).packetsSent = 0 := by
  by_cases hs : n.isShuttingDown
  · unfold handlePacketSend
    simp [hs]
  · rw [handlePacketSend_suppressed env n (by simpa using hs) h]
    simp [OctreeQueryNode.resetOctreePacket, (suppress_snd_fields n).1]

/-- C10 witness: a concrete suppressed call with a stats message pending. -/
theorem suppression_preempts_stats_witness :
    (handlePacketSend env0 { idleNode with statsReady := true }).events = [] ∧
    (handlePacketSend env0 { idleNode with statsReady := true }).node.statsReady =
      ({ idleNode with statsReady := true } : OctreeQueryNode).statsReady ∧
    (handlePacketSend env0 { idleNode with statsReady := true }).packetsSent = 0 :=
  suppression_preempts_stats env0 { idleNode with statsReady := true } (by decide)

/-- C9: past the suppression check, a ready stats message always causes a
transmission — exactly one octree payload goes out (piggybacked or as its
own datagram), the sequence number advances and the packet is reset — even
when no octree packet is waiting; without a ready stats message a payload
is transmitted exactly when one is waiting. -/
theorem stats_ready_send_behavior (env : Env) (n : OctreeQueryNode)
    (hs : n.isShuttingDown = false)
    (h : (n.shouldSuppressDuplicatePacket).1 = false) :
    (n.statsReady = true →
      octreePayloadCount (handlePacketSend env n).events = 1 ∧
      (handlePacketSend env n).node.sequenceNumber = n.sequenceNumber + 1 ∧
      (handlePacketSend env n).node.content = []) ∧
    (n.statsReady = false →
      octreePayloadCount (handlePacketSend env n).events =
        (if n.octreePacketWaiting then 1 else 0)) := by
  obtain ⟨h1, h2, h3, h4, h5, h6⟩ := suppress_snd_fields n
  unfold handlePacketSend
  simp only [hs, h, Bool.false_eq_true, if_false, Bool.not_false, Bool.and_true]
  constructor
  · intro hr
    simp [h1, h2, hr, hs, h5, OctreeQueryNode.resetOctreePacket,
      octreePayloadCount, isOctreePayload]
    split <;> simp [octreePayloadCount, isOctreePayload]
  · intro hr
    simp [h1, h2, h3, hr, hs, h5, OctreeQueryNode.resetOctreePacket,
      octreePayloadCount, isOctreePayload]
    split <;> rename_i hw <;>
      simp only [OctreeQueryNode.isPacketWaiting, h3] at hw <;>
      simp [hw, octreePayloadCount, isOctreePayload]

/-- C9 witness: stats ready, nothing waiting — the payload is still sent
and the sequence number advances. -/
theorem stats_ready_send_behavior_witness :
    ((({ overflowNode with statsReady := true, octreePacketWaiting := false }
        : OctreeQueryNode).statsReady = true →
      octreePayloadCount (handlePacketSend env0
        { overflowNode with statsReady := true, octreePacketWaiting := false }).events = 1 ∧
      (handlePacketSend env0
        { overflowNode with statsReady := true, octreePacketWaiting := false
          }).node.sequenceNumber =
        ({ overflowNode with statsReady := true, octreePacketWaiting := false }
          : OctreeQueryNode).sequenceNumber + 1 ∧
      (handlePacketSend env0
        { overflowNode with statsReady := true, octreePacketWaiting := false
          }).node.content = []) ∧
    (({ overflowNode with statsReady := true, octreePacketWaiting := false }
        : OctreeQueryNode).statsReady = false →
      octreePayloadCount (handlePacketSend env0
        { overflowNode with statsReady := true, octreePacketWaiting := false }).events =
        (if ({ overflowNode with statsReady := true, octreePacketWaiting := false }
            : OctreeQueryNode).octreePacketWaiting then 1 else 0))) :=
  stats_ready_send_behavior env0
    { overflowNode with statsReady := true, octreePacketWaiting := false }
    (by decide) (by decide)

/-! C2: the `isFullScene` formula. -/

/-- C2 counterexample: with the view changed and the client opted into
delta mode, `isFullScene` as computed at line 265 is false although the
view just stopped changing, refuting
`isFullScene = justStoppedChanging || lodChanged` for all inputs. -/
theorem isFullScene_claim_false :
    computeIsFullScene true true true false = false ∧ (true || false) = true := by
  decide

/-! C8: the `lastNodeDidntFit` flag. -/

/-- C8 counterexample: in the compressed extra-packing mode (target size 50
differing from the full-size target 80) the flag is set although the buffer
has no content, refuting the claim that content is always required. -/
theorem didntFit_without_content :
    computeLastNodeDidntFit 50 80 false 0 StopReason.DIDNT_FIT = true ∧ ¬(50 = 80) := by
  decide

/-- C8 amended: the flag is set only when the encoder wrote zero bytes and
the stop reason is capacity (`DIDNT_FIT`) — hence never for out-of-view,
out-of-jurisdiction or occluded stops — and the packet-assembler content
requirement applies exactly when the target is the full packet-data size. -/
theorem didntFit_only_capacity (t m : Nat) (hc : Bool) (b : Nat) (r : StopReason)
    (h : computeLastNodeDidntFit t m hc b r = true) :
    r = StopReason.DIDNT_FIT ∧ b = 0 ∧
    r ≠ StopReason.OUT_OF_VIEW ∧ r ≠ StopReason.OUT_OF_JURISDICTION ∧
    r ≠ StopReason.OCCLUDED ∧ (t = m → hc = true) := by
  unfold computeLastNodeDidntFit at h
  split at h <;> simp_all

/-- C8 amended witness: a concrete capacity stop at the full-size target. -/
theorem didntFit_only_capacity_witness :
    StopReason.DIDNT_FIT = StopReason.DIDNT_FIT ∧ (0 : Nat) = 0 ∧
    StopReason.DIDNT_FIT ≠ StopReason.OUT_OF_VIEW ∧
    StopReason.DIDNT_FIT ≠ StopReason.OUT_OF_JURISDICTION ∧
    StopReason.DIDNT_FIT ≠ StopReason.OCCLUDED ∧
    ((80 : Nat) = 80 → true = true) :=
  didntFit_only_capacity 80 80 true 0 StopReason.DIDNT_FIT (by decide)

/-! C3: sequence numbers along a trace of send calls. -/

/-- What the distributor does to the session between two send calls: writes
bytes into the packet (when non-empty), sets the stats readiness/message,
and the view-change flag is re-evaluated. -/
structure SendPrep where
  writeBytes : Bytes
  statsReady : Bool
  statsMessage : Bytes
  viewChanging : Bool
deriving DecidableEq, Repr

def applyPrep (p : SendPrep) (n : OctreeQueryNode) : OctreeQueryNode :=
  let n1 := { n with statsReady := p.statsReady, statsMessage := p.statsMessage,
                     viewFrustumChanging := p.viewChanging }
  if p.writeBytes.isEmpty then n1 else n1.writeToPacket p.writeBytes

/-- A session trace: repeatedly prepare the packet and call
`handlePacketSend`, collecting all observable events. -/
def runSendTrace (env : Env) : OctreeQueryNode → List SendPrep →
    OctreeQueryNode × List Event
  | n, [] => (n, [])
  | n, p :: ps =>
      let out := handlePacketSend env (applyPrep p n)
      let rest := runSendTrace env out.node ps
      (rest.1, out.events ++ rest.2)

theorem sentSeqs_append (a b : List Event) :
    sentSeqs (a ++ b) = sentSeqs a ++ sentSeqs b := by
  simp [sentSeqs, List.filterMap_append]

/-- One `handlePacketSend` call either transmits nothing and keeps the
sequence number, or transmits exactly one payload carrying the current
sequence number and advances it by one. -/
theorem handlePacketSend_seq (env : Env) (n : OctreeQueryNode) :
    (sentSeqs (handlePacketSend env n).events = [] ∧
      (handlePacketSend env n).node.sequenceNumber = n.sequenceNumber) ∨
    (sentSeqs (handlePacketSend env n).events = [n.sequenceNumber] ∧
      (handlePacketSend env n).node.sequenceNumber = n.sequenceNumber + 1) := by
  obtain ⟨h1, h2, h3, h4, h5, h6⟩ := suppress_snd_fields n
  by_cases hs : n.isShuttingDown
  · left
    unfold handlePacketSend
    simp [hs, sentSeqs]
  · by_cases hsup : (n.shouldSuppressDuplicatePacket).1
    · left
      rw [handlePacketSend_suppressed env n (by simpa using hs) hsup]
      simp [sentSeqs, OctreeQueryNode.resetOctreePacket, h2]
    · unfold handlePacketSend
      simp only [hs, Bool.false_eq_true, if_false, hsup, if_neg, Bool.not_false,
        Bool.and_true]
      by_cases hr : (n.shouldSuppressDuplicatePacket).2.statsReady
      · right
        simp [hr, h5, hs, sentSeqs, OctreeQueryNode.resetOctreePacket, h2]
        split <;> simp [sentSeqs, h2]
      · simp only [hr]
        by_cases hw : (n.shouldSuppressDuplicatePacket).2.isPacketWaiting
        · right
          simp [hr, hw, h5, hs, sentSeqs, OctreeQueryNode.resetOctreePacket, h2]
        · left
          simp [hr, hw, h5, hs, sentSeqs, h2]

theorem range_map_shift (k s : Nat) :
    (List.range (k + 1)).map (fun i => s + i) =
      s :: (List.range k).map (fun i => s + 1 + i) := by
  rw [List.range_succ_eq_map]
  simp only [List.map_cons, List.map_map, Nat.add_zero]
  refine congrArg _ (List.map_congr_left fun a _ => ?_)
  simp [Function.comp]
  omega

theorem applyPrep_seq (p : SendPrep) (n : OctreeQueryNode) :
    (applyPrep p n).sequenceNumber = n.sequenceNumber := by
  unfold applyPrep
  split <;> simp [OctreeQueryNode.writeToPacket]

/-- Along any trace of send calls, the transmitted payloads carry exactly
the consecutive sequence numbers starting from the session's current one. -/
theorem runSendTrace_seqs (env : Env) (n : OctreeQueryNode) (ps : List SendPrep) :
    sentSeqs (runSendTrace env n ps).2 =
      (List.range (sentSeqs (runSendTrace env n ps).2).length).map
        (fun i => n.sequenceNumber + i) := by
  induction ps generalizing n with
  | nil => simp [runSendTrace, sentSeqs]
  | cons p ps ih =>
      have hseq := handlePacketSend_seq env (applyPrep p n)
      have hp := applyPrep_seq p n
      have ihn := ih (handlePacketSend env (applyPrep p n)).node
      simp only [runSendTrace, sentSeqs_append]
      rcases hseq with ⟨he, hn⟩ | ⟨he, hn⟩
      · rw [he]
        rw [hn, hp] at ihn
        simpa using ihn
      · rw [he, hp]
        rw [hn, hp] at ihn
        simp only [List.cons_append, List.nil_append, List.length_cons]
        rw [range_map_shift]
        exact congrArg _ ihn

/-- C3: the sequence number advances only on an actually-transmitted
payload — a suppressed `handlePacketSend` call leaves it unchanged and
transmits nothing — and along any trace the transmitted payloads carry
strictly increasing sequence numbers that grow by exactly 1 between
consecutive transmissions (the sequence-number increment of the absent
`OctreeQueryNode.cpp` is modelled from the spec). -/
theorem sequence_numbers_strict (env : Env) (n : OctreeQueryNode)
    (hsup : (n.shouldSuppressDuplicatePacket).1 = true) :
    ((handlePacketSend env n).node.sequenceNumber = n.sequenceNumber ∧
      sentSeqs (handlePacketSend env n).events = []) ∧
    (∀ m ps, sentSeqs (runSendTrace env m ps).2 =
      (List.range (sentSeqs (runSendTrace env m ps).2).length).map
        (fun i => m.sequenceNumber + i)) := by
  constructor
  · by_cases hs : n.isShuttingDown
    · unfold handlePacketSend
      simp [hs, sentSeqs]
    · rw [handlePacketSend_suppressed env n (by simpa using hs) hsup]
      simp [sentSeqs, OctreeQueryNode.resetOctreePacket, (suppress_snd_fields n).2.1]
  · exact fun m ps => runSendTrace_seqs env m ps

/-- C3 witness: a concrete suppressed call, and the trace property holds at
the concrete idle session. -/
theorem sequence_numbers_strict_witness :
    ((handlePacketSend env0 idleNode).node.sequenceNumber =
        idleNode.sequenceNumber ∧
      sentSeqs (handlePacketSend env0 idleNode).events = []) ∧
    (∀ m ps, sentSeqs (runSendTrace env0 m ps).2 =
      (List.range (sentSeqs (runSendTrace env0 m ps).2).length).map
        (fun i => m.sequenceNumber + i)) :=
  sequence_numbers_strict env0 idleNode (by decide)

/-! Structural lemmas: what kinds of events and how many packets each
piece of the distributor can produce. -/

theorem suppress_snd_eq (n : OctreeQueryNode) :
    ∃ k, (n.shouldSuppressDuplicatePacket).2 =
      { n with duplicatePacketCount := k } := by
  unfold OctreeQueryNode.shouldSuppressDuplicatePacket
  split
  · exact ⟨n.duplicatePacketCount + 1, rfl⟩
  · exact ⟨0, rfl⟩

theorem handlePacketSend_events_datagram (env : Env) (n : OctreeQueryNode) :
    ∀ x ∈ (handlePacketSend env n).events, isDatagram x = true := by
  obtain ⟨k, hk⟩ := suppress_snd_eq n
  unfold handlePacketSend
  simp only [hk]
  split
  · simp
  · split
    · simp
    · split <;> split <;>
        simp [isDatagram, OctreeQueryNode.resetOctreePacket]

theorem handlePacketSend_count_zero (env : Env) (n : OctreeQueryNode)
    (e : Event) (he : isDatagram e = false) :
    (handlePacketSend env n).events.count e = 0 := by
  rw [List.count_eq_zero]
  intro hmem
  rw [handlePacketSend_events_datagram env n e hmem] at he
  simp at he

theorem handlePacketSend_preserves (env : Env) (n : OctreeQueryNode) :
    (handlePacketSend env n).node.nodeBag = n.nodeBag ∧
    (handlePacketSend env n).node.maxOctreePacketsPerSecond =
      n.maxOctreePacketsPerSecond ∧
    (handlePacketSend env n).node.isShuttingDown = n.isShuttingDown ∧
    (handlePacketSend env n).node.viewFrustumChanging = n.viewFrustumChanging ∧
    (handlePacketSend env n).node.wantCompression = n.wantCompression ∧
    (handlePacketSend env n).node.map = n.map ∧
    (handlePacketSend env n).node.viewSent = n.viewSent ∧
    (handlePacketSend env n).node.lodChanged = n.lodChanged ∧
    (handlePacketSend env n).node.moveShouldDumpFlag = n.moveShouldDumpFlag ∧
    (handlePacketSend env n).node.viewFrustumJustStoppedChanging =
      n.viewFrustumJustStoppedChanging ∧
    (handlePacketSend env n).node.wantDelta = n.wantDelta := by
  obtain ⟨k, hk⟩ := suppress_snd_eq n
  unfold handlePacketSend
  simp only [hk]
  split
  · simp
  · split
    · simp [OctreeQueryNode.resetOctreePacket]
    · split <;> split <;>
        simp [OctreeQueryNode.resetOctreePacket]

theorem handlePacketSend_packetsSent_le_two (env : Env) (n : OctreeQueryNode) :
    (handlePacketSend env n).packetsSent ≤ 2 := by
  obtain ⟨k, hk⟩ := suppress_snd_eq n
  unfold handlePacketSend
  simp only [hk]
  split
  · simp
  · split
    · simp
    · split <;> split <;> simp

theorem handlePacketSend_stats_or_zero (env : Env) (n : OctreeQueryNode) :
    (handlePacketSend env n).node.statsReady = false ∨
    (handlePacketSend env n).packetsSent = 0 := by
  obtain ⟨k, hk⟩ := suppress_snd_eq n
  unfold handlePacketSend
  simp only [hk]
  split
  · right; rfl
  · split
    · right; rfl
    · split
      · split <;> left <;> simp [OctreeQueryNode.resetOctreePacket]
      · split
        · left
          simp_all [OctreeQueryNode.resetOctreePacket]
        · right; rfl

theorem handlePacketSend_statsReady_after (env : Env) (n : OctreeQueryNode)
    (h : 1 ≤ (handlePacketSend env n).packetsSent) :
    (handlePacketSend env n).node.statsReady = false := by
  rcases handlePacketSend_stats_or_zero env n with h1 | h1
  · exact h1
  · omega

theorem handlePacketSend_packetsSent_le_one (env : Env) (n : OctreeQueryNode)
    (h : n.statsReady = false) :
    (handlePacketSend env n).packetsSent ≤ 1 := by
  obtain ⟨k, hk⟩ := suppress_snd_eq n
  unfold handlePacketSend
  simp only [hk]
  split
  · simp
  · split
    · simp
    · split <;> split <;> simp_all

theorem formatFlushStep_count (env : Env) (st : DistState) (e : Event)
    (he : isDatagram e = false) :
    (formatFlushStep env st).events.count e = st.events.count e := by
  unfold formatFlushStep
  split
  · split <;>
      simp [applySend, List.count_append, handlePacketSend_count_zero env _ e he]
  · rfl

theorem formatFlushStep_node (env : Env) (st : DistState) :
    (formatFlushStep env st).node.nodeBag = st.node.nodeBag ∧
    (formatFlushStep env st).node.maxOctreePacketsPerSecond =
      st.node.maxOctreePacketsPerSecond ∧
    (formatFlushStep env st).node.isShuttingDown = st.node.isShuttingDown ∧
    (formatFlushStep env st).node.viewFrustumChanging =
      st.node.viewFrustumChanging ∧
    (formatFlushStep env st).node.lodChanged = st.node.lodChanged ∧
    (formatFlushStep env st).node.moveShouldDumpFlag =
      st.node.moveShouldDumpFlag ∧
    (formatFlushStep env st).node.viewFrustumJustStoppedChanging =
      st.node.viewFrustumJustStoppedChanging ∧
    (formatFlushStep env st).node.wantDelta = st.node.wantDelta := by
  obtain ⟨h1, h2, h3, h4, h5, h6, h7, h8, h9, h10, h11⟩ :=
    handlePacketSend_preserves env st.node
  unfold formatFlushStep
  split
  · split <;> simp_all [applySend, OctreeQueryNode.resetOctreePacket]
  · simp

theorem sceneRestartStep_count (env : Env) (st : DistState)
    (vfc ifs : Bool) (e : Event) (he : isDatagram e = false) :
    (sceneRestartStep env st vfc ifs).events.count e =
      st.events.count e +
      (if vfc || st.node.nodeBag.isEmpty then
        ((if vfc then
            (if st.node.moveShouldDumpFlag || st.node.lodChanged then
              [Event.dumpOutOfView] else []) ++ [Event.mapErase]
          else []) ++
          (if ifs then [Event.bagDeleteAll] else []) ++
          [Event.sceneStartedEv ifs]).count e
      else 0) := by
  have hz : ∀ m, (handlePacketSend env m).events.count e = 0 :=
    fun m => handlePacketSend_count_zero env m e he
  unfold sceneRestartStep
  split_ifs <;>
    simp_all [applySend, List.count_append, List.count_cons] <;>
    first
      | rfl
      | (split <;> rfl)

/-! C6: what a view change clears at the scene-restart boundary. -/

/-- C6 counterexample: a view change that is neither move-triggered nor an
LOD change (`moveShouldDump` and `hasLodChanged` both false) still erases
the coverage map in the restart block, refuting "cleared exactly on a
qualifying view change". -/
theorem mapErase_on_nonqualifying_change :
    mapNode.moveShouldDumpFlag = false ∧ mapNode.lodChanged = false ∧
    (distAfterPhase1 env0 mapNode pd0 true).events.count Event.mapErase = 1 ∧
    (distAfterPhase1 env0 mapNode pd0 true).node.map = 0 := by
  decide

/-- C6 amended: in the scene-restart phase the coverage map is erased on
every view change (not only qualifying ones), while the visit bag is
dumped out of view exactly on a qualifying view change — one that is
move-triggered or an LOD change. -/
theorem scene_restart_clear_policy (env : Env) (node : OctreeQueryNode)
    (pd : OctreePacketData) (vfc : Bool) :
    ((distAfterPhase1 env node pd vfc).events.count Event.mapErase =
      if vfc then 1 else 0) ∧
    ((distAfterPhase1 env node pd vfc).events.count Event.dumpOutOfView =
      if vfc && (node.moveShouldDumpFlag || node.lodChanged) then 1 else 0) := by
  obtain ⟨b1, b2, b3, b4, b5, b6, b7, b8⟩ :=
    formatFlushStep_node env ⟨node, pd, 0, 0, 0, [], 0⟩
  have hme := formatFlushStep_count env ⟨node, pd, 0, 0, 0, [], 0⟩
    Event.mapErase (by decide)
  have hdo := formatFlushStep_count env ⟨node, pd, 0, 0, 0, [], 0⟩
    Event.dumpOutOfView (by decide)
  simp only [distAfterPhase1]
  rw [sceneRestartStep_count env _ vfc _ Event.mapErase (by decide),
    sceneRestartStep_count env _ vfc _ Event.dumpOutOfView (by decide)]
  rw [hme, hdo, b5, b6]
  simp only [List.count_nil, Nat.zero_add]
  constructor <;> split_ifs <;> simp_all [List.count_append, List.count_cons]

/-! Event kinds the packing loop can emit, and count preservation. -/

/-- Events the packing loop itself can add: encode calls and datagrams. -/
def isLoopEvent : Event → Bool
  | Event.encodeCall _ _ _ => true
  | e => isDatagram e

theorem isLoopEvent_datagram (e : Event) (he : isLoopEvent e = false) :
    isDatagram e = false := by
  cases e <;> simp_all [isLoopEvent, isDatagram]

theorem count_encode_zero (e : Event) (a : Nat) (b c : Bool)
    (he : isLoopEvent e = false) :
    List.count e [Event.encodeCall a b c] = 0 := by
  cases e <;> simp_all [isLoopEvent, List.count_cons]

theorem packAppendStep_count (env : Env) (st : DistState) (ex : Nat)
    (e : Event) (he : isDatagram e = false) :
    (packAppendStep env st ex).1.events.count e = st.events.count e := by
  have hz : ∀ m, (handlePacketSend env m).events.count e = 0 :=
    fun m => handlePacketSend_count_zero env m e he
  unfold packAppendStep
  split_ifs <;> simp_all [applySend, List.count_append]
  all_goals (split <;> simp_all [applySend, List.count_append])

theorem sendNowStep_count (env : Env) (st1 : DistState) (ex1 : Nat)
    (e : Event) (he : isDatagram e = false) :
    (sendNowStep env st1 ex1).events.count e = st1.events.count e := by
  have hz : ∀ m, (handlePacketSend env m).events.count e = 0 :=
    fun m => handlePacketSend_count_zero env m e he
  simp only [sendNowStep]
  split_ifs <;> simp_all [applySend, List.count_append]

theorem sendPhase_count (env : Env) (st : DistState) (c l : Bool) (ex : Nat)
    (e : Event) (he : isDatagram e = false) :
    (sendPhase env st c l ex).1.events.count e = st.events.count e := by
  unfold sendPhase
  split
  · rw [sendNowStep_count env _ _ e he]
    exact packAppendStep_count env st ex e he
  · rfl

theorem loopIter_count (env : Env) (enc : Encoder) (v f w : Bool)
    (st : DistState) (sts cs : Bool) (ex : Nat) (e : Event)
    (he : isLoopEvent e = false) :
    (loopIter env enc v f w st sts cs ex).1.events.count e =
      st.events.count e := by
  have hd := isLoopEvent_datagram e he
  rcases hbag : st.node.nodeBag with _ | ⟨a, rest⟩ <;>
    simp only [loopIter, hbag] <;>
    rw [sendPhase_count env _ _ _ _ e hd] <;>
    simp [List.count_append, count_encode_zero e _ _ _ he]

theorem sendLoopGo_count (env : Env) (enc : Encoder) (v f w : Bool)
    (mp : Nat) (e : Event) (he : isLoopEvent e = false) :
    ∀ (fuel : Nat) (st : DistState) (sts cs : Bool) (ex : Nat),
      (sendLoopGo env enc v f w mp fuel st sts cs ex).events.count e =
        st.events.count e := by
  intro fuel
  induction fuel with
  | zero => intro st sts cs ex; rfl
  | succ k ih =>
      intro st sts cs ex
      unfold sendLoopGo
      split
      · rw [ih]
        exact loopIter_count env enc v f w st sts cs ex e he
      · rfl

theorem postLoop_facts (env : Env) (st : DistState) :
    (postLoop env st).node.nodeBag = st.node.nodeBag ∧
    ((postLoop env st).events.count Event.updateLastKnown =
      st.events.count Event.updateLastKnown +
      (if st.node.nodeBag.isEmpty then 1 else 0)) ∧
    (st.node.nodeBag.isEmpty = true →
      (postLoop env st).node.viewSent = true ∧ (postLoop env st).node.map = 0) := by
  unfold postLoop
  split_ifs <;> simp_all [List.count_append, List.count_cons]

theorem postLoop_count_other (env : Env) (st : DistState) (e : Event)
    (h1 : e ≠ Event.specialPacket) (h2 : e ≠ Event.updateLastKnown)
    (h3 : e ≠ Event.viewSentSet) (h4 : e ≠ Event.mapErase) :
    (postLoop env st).events.count e = st.events.count e := by
  have g1 : Event.specialPacket ≠ e := Ne.symm h1
  have g2 : Event.updateLastKnown ≠ e := Ne.symm h2
  have g3 : Event.viewSentSet ≠ e := Ne.symm h3
  have g4 : Event.mapErase ≠ e := Ne.symm h4
  unfold postLoop
  split_ifs <;>
    simp_all [List.count_append, List.count_cons] <;>
    split_ifs <;>
    simp_all [List.count_append, List.count_cons]

/-! C7: the scene-completion snapshot. -/

theorem phase1_count_ulk (env : Env) (node : OctreeQueryNode)
    (pd : OctreePacketData) (vfc : Bool) :
    (distAfterPhase1 env node pd vfc).events.count Event.updateLastKnown = 0 := by
  simp only [distAfterPhase1]
  rw [sceneRestartStep_count env _ vfc _ Event.updateLastKnown (by decide)]
  rw [formatFlushStep_count env _ Event.updateLastKnown (by decide)]
  simp only [List.count_nil, Nat.zero_add]
  split_ifs <;> simp [List.count_append, List.count_cons]

/-- C7: in a Distributor cycle whose visit bag is non-empty when the
packing block is entered and empty at the end, the last-known view frustum
is snapshotted exactly once, the view is marked sent, and the coverage map
is cleared. -/
theorem scene_completion_snapshot (env : Env) (enc : Encoder) (fuel : Nat)
    (node : OctreeQueryNode) (pd : OctreePacketData) (vfc : Bool)
    (hs : node.isShuttingDown = false)
    (hne : (distAfterPhase1 env node pd vfc).node.nodeBag ≠ [])
    (hemp : (packetDistributor env enc fuel node pd vfc).node.nodeBag = []) :
    (packetDistributor env enc fuel node pd vfc).events.count
      Event.updateLastKnown = 1 ∧
    (packetDistributor env enc fuel node pd vfc).node.viewSent = true ∧
    (packetDistributor env enc fuel node pd vfc).node.map = 0 := by
  have hguard : (distAfterPhase1 env node pd vfc).node.nodeBag.isEmpty = false := by
    simpa [List.isEmpty_iff] using hne
  rw [packetDistributor] at hemp ⊢
  simp only [hs, Bool.false_eq_true, if_false, sendLoopBlock, hguard,
    Bool.not_false, if_true] at hemp ⊢
  obtain ⟨pb, pulk, pvs⟩ := postLoop_facts env
    (sendLoopGo env enc vfc
      (computeIsFullScene vfc node.wantDelta node.viewFrustumJustStoppedChanging
        node.lodChanged) (vfc && node.wantDelta)
      (maxPacketsPerInterval env (distAfterPhase1 env node pd vfc).node) fuel
      (distAfterPhase1 env node pd vfc) true false 0)
  rw [pb] at hemp
  have hloopempty : (sendLoopGo env enc vfc
      (computeIsFullScene vfc node.wantDelta node.viewFrustumJustStoppedChanging
        node.lodChanged) (vfc && node.wantDelta)
      (maxPacketsPerInterval env (distAfterPhase1 env node pd vfc).node) fuel
      (distAfterPhase1 env node pd vfc) true false
      0).node.nodeBag.isEmpty = true := by
    simp [List.isEmpty_iff, hemp]
  refine ⟨?_, (pvs hloopempty).1, (pvs hloopempty).2⟩
  rw [pulk, hloopempty]
  rw [sendLoopGo_count env enc _ _ _ _ Event.updateLastKnown (by decide)]
  rw [phase1_count_ulk env node pd vfc]
  simp

theorem phase1_count_sceneStarted (env : Env) (node : OctreeQueryNode)
    (pd : OctreePacketData) (vfc b : Bool) :
    (distAfterPhase1 env node pd vfc).events.count (Event.sceneStartedEv b) =
      if (vfc || node.nodeBag.isEmpty) &&
          (b == computeIsFullScene vfc node.wantDelta
            node.viewFrustumJustStoppedChanging node.lodChanged) then 1
      else 0 := by
  obtain ⟨b1, b2, b3, b4, b5, b6, b7, b8⟩ :=
    formatFlushStep_node env ⟨node, pd, 0, 0, 0, [], 0⟩
  have hc := formatFlushStep_count env ⟨node, pd, 0, 0, 0, [], 0⟩
    (Event.sceneStartedEv b) (by rfl)
  simp only [distAfterPhase1]
  rw [sceneRestartStep_count env _ vfc _ (Event.sceneStartedEv b) (by rfl)]
  rw [hc, b1]
  simp only [List.count_nil, Nat.zero_add]
  by_cases hb : b = computeIsFullScene vfc node.wantDelta
    node.viewFrustumJustStoppedChanging node.lodChanged <;>
    split_ifs <;>
    simp_all [List.count_append, List.count_cons]

/-- C2 amended: the full-scene flag recorded when a scene starts is
`((not viewFrustumChanged or not wantDelta) and viewFrustumJustStoppedChanging)
or lodChanged` — the code suppresses the just-stopped trigger when the view
changed and the client opted into deltas, rather than the claimed
`justStoppedChanging or lodChanged`; exactly one scene start is recorded
per live cycle entering the restart block, and none with the opposite flag. -/
theorem isFullScene_used_formula (env : Env) (enc : Encoder) (fuel : Nat)
    (node : OctreeQueryNode) (pd : OctreePacketData) (vfc : Bool) :
    ((packetDistributor env enc fuel node pd vfc).events.count
        (Event.sceneStartedEv (((!vfc || !node.wantDelta) &&
          node.viewFrustumJustStoppedChanging) || node.lodChanged)) =
      if !node.isShuttingDown && (vfc || node.nodeBag.isEmpty) then 1 else 0) ∧
    ((packetDistributor env enc fuel node pd vfc).events.count
        (Event.sceneStartedEv (!(((!vfc || !node.wantDelta) &&
          node.viewFrustumJustStoppedChanging) || node.lodChanged))) = 0) := by
  by_cases hs : node.isShuttingDown
  · simp [packetDistributor, hs]
  · have hcount : ∀ b : Bool,
        (packetDistributor env enc fuel node pd vfc).events.count
          (Event.sceneStartedEv b) =
        (distAfterPhase1 env node pd vfc).events.count (Event.sceneStartedEv b) := by
      intro b
      simp only [packetDistributor, hs, Bool.false_eq_true, if_false,
        sendLoopBlock]
      by_cases hg : (distAfterPhase1 env node pd vfc).node.nodeBag.isEmpty
      · simp [hg]
      · simp only [Bool.not_eq_true] at hg
        simp only [hg, Bool.not_false, if_true]
        rw [postLoop_count_other env _ _ (by simp) (by simp) (by simp) (by simp)]
        rw [sendLoopGo_count env enc _ _ _ _ _ (by rfl)]
    rw [hcount, hcount, phase1_count_sceneStarted, phase1_count_sceneStarted]
    have hb : (node.isShuttingDown = false) := by simpa using hs
    constructor
    · by_cases hc : (vfc || node.nodeBag.isEmpty) = true <;>
        simp [hc, hb, computeIsFullScene]
    · have hx : ∀ x : Bool, ((!x) == x) = false := by decide
      simp only [computeIsFullScene, hx]
      simp

/-- C7 witness: the idle session re-seeded with the root completes the
scene in one cycle. -/
theorem scene_completion_snapshot_witness :
    (packetDistributor env0 encIdle 5 idleNode pd0 false).events.count
      Event.updateLastKnown = 1 ∧
    (packetDistributor env0 encIdle 5 idleNode pd0 false).node.viewSent = true ∧
    (packetDistributor env0 encIdle 5 idleNode pd0 false).node.map = 0 :=
  scene_completion_snapshot env0 encIdle 5 idleNode pd0 false
    (by decide) (by decide) (by decide)

/-! C5: a Distributor call with an empty bag and an unchanged view. -/

theorem suppress_of_idle (n : OctreeQueryNode) (h1 : n.content = [])
    (h2 : n.lastOctreePacket = []) (h3 : n.viewFrustumChanging = false) :
    (n.shouldSuppressDuplicatePacket).1 = true := by
  simp [OctreeQueryNode.shouldSuppressDuplicatePacket,
    OctreeQueryNode.packetIsDuplicate, h1, h2, h3]

theorem handlePacketSend_idleForm (env : Env) (m : OctreeQueryNode)
    (h1 : m.content = []) (h2 : m.lastOctreePacket = [])
    (h3 : m.viewFrustumChanging = false) (h4 : m.isShuttingDown = false) :
    handlePacketSend env m =
      ⟨(m.shouldSuppressDuplicatePacket).2.resetOctreePacket, 0, 0, 0, []⟩ :=
  handlePacketSend_suppressed env m h4 (suppress_of_idle m h1 h2 h3)

theorem packAppendStep_idle (env : Env) (st : DistState) (ex : Nat)
    (h6 : st.pd.content = []) :
    packAppendStep env st ex = (st, ex) := by
  unfold packAppendStep
  simp [OctreePacketData.hasContent, h6]

theorem sendNowStep_idle (env : Env) (st1 : DistState) (ex1 : Nat)
    (h1 : st1.node.content = []) (h2 : st1.node.lastOctreePacket = [])
    (h3 : st1.node.viewFrustumChanging = false)
    (h4 : st1.node.isShuttingDown = false) :
    (sendNowStep env st1 ex1).packetsSentThisInterval =
      st1.packetsSentThisInterval ∧
    (sendNowStep env st1 ex1).encodeCalls = st1.encodeCalls ∧
    (sendNowStep env st1 ex1).node.nodeBag = st1.node.nodeBag ∧
    (sendNowStep env st1 ex1).node.content = [] ∧
    (sendNowStep env st1 ex1).node.lastOctreePacket = [] ∧
    (sendNowStep env st1 ex1).node.viewFrustumChanging = false ∧
    (sendNowStep env st1 ex1).node.isShuttingDown = false ∧
    (sendNowStep env st1 ex1).pd.content = [] := by
  obtain ⟨kk, hk⟩ := suppress_snd_eq st1.node
  have hh := handlePacketSend_idleForm env st1.node h1 h2 h3 h4
  simp only [sendNowStep]
  split_ifs <;>
    simp_all [applySend, OctreeQueryNode.resetOctreePacket,
      OctreePacketData.changeSettings]

theorem sendPhase_idle (env : Env) (st : DistState) (cs l : Bool) (ex : Nat)
    (h1 : st.node.content = []) (h2 : st.node.lastOctreePacket = [])
    (h3 : st.node.viewFrustumChanging = false)
    (h4 : st.node.isShuttingDown = false) (h6 : st.pd.content = []) :
    (sendPhase env st cs l ex).1.packetsSentThisInterval =
      st.packetsSentThisInterval ∧
    (sendPhase env st cs l ex).1.encodeCalls = st.encodeCalls ∧
    (sendPhase env st cs l ex).1.node.nodeBag = st.node.nodeBag ∧
    (sendPhase env st cs l ex).1.node.content = [] ∧
    (sendPhase env st cs l ex).1.node.lastOctreePacket = [] ∧
    (sendPhase env st cs l ex).1.node.viewFrustumChanging = false ∧
    (sendPhase env st cs l ex).1.node.isShuttingDown = false ∧
    (sendPhase env st cs l ex).1.pd.content = [] := by
  unfold sendPhase
  split
  · rw [packAppendStep_idle env st ex h6]
    exact sendNowStep_idle env st ex h1 h2 h3 h4
  · exact ⟨rfl, rfl, rfl, h1, h2, h3, h4, h6⟩

theorem sendLoopGo_idle (env : Env) (enc : Encoder) (v f w : Bool) (mp : Nat) :
    ∀ (fuel : Nat) (st : DistState) (sts cs : Bool) (ex : Nat),
      st.node.nodeBag = [] →
      st.node.content = [] →
      st.node.lastOctreePacket = [] →
      st.node.viewFrustumChanging = false →
      st.node.isShuttingDown = false →
      st.pd.content = [] →
      (sendLoopGo env enc v f w mp fuel st sts cs ex).packetsSentThisInterval =
        st.packetsSentThisInterval ∧
      (sendLoopGo env enc v f w mp fuel st sts cs ex).encodeCalls =
        st.encodeCalls := by
  intro fuel
  induction fuel with
  | zero => intro st sts cs ex _ _ _ _ _ _; exact ⟨rfl, rfl⟩
  | succ k ih =>
      intro st sts cs ex hb h1 h2 h3 h4 h6
      unfold sendLoopGo
      split
      · have hiter : loopIter env enc v f w st sts cs ex =
            ((sendPhase env st cs false ex).1, false, cs,
              (sendPhase env st cs false ex).2) := by
          simp [loopIter, hb]
        rw [hiter]
        obtain ⟨p1, p2, p3, p4, p5, p6, p7, p8⟩ :=
          sendPhase_idle env st cs false ex h1 h2 h3 h4 h6
        obtain ⟨q1, q2⟩ := ih (sendPhase env st cs false ex).1 false cs
          (sendPhase env st cs false ex).2 (by rw [p3, hb]) p4 p5 p6 p7 p8
        rw [q1, q2, p1, p2]
        exact ⟨rfl, rfl⟩
      · exact ⟨rfl, rfl⟩

theorem postLoop_counters (env : Env) (st : DistState)
    (h : env.hasSpecialPacket = false) :
    (postLoop env st).packetsSentThisInterval = st.packetsSentThisInterval ∧
    (postLoop env st).encodeCalls = st.encodeCalls := by
  unfold postLoop
  split_ifs <;> simp_all
  all_goals (split_ifs <;> simp_all)

theorem maxPackets_pos (env : Env) (n : OctreeQueryNode)
    (h : 1 ≤ env.serverPacketsPerClientPerInterval) :
    0 < maxPacketsPerInterval env n := by
  unfold maxPacketsPerInterval
  omega

theorem sendLoopGo_after_phase_psti (env : Env) (enc : Encoder) (v f w : Bool)
    (mp k : Nat) (st2 : DistState) (cs l : Bool) (ex : Nat) (sts cs2 : Bool)
    (ex2 : Nat) (hb : st2.node.nodeBag = []) (h1 : st2.node.content = [])
    (h2 : st2.node.lastOctreePacket = [])
    (h3 : st2.node.viewFrustumChanging = false)
    (h4 : st2.node.isShuttingDown = false) (h6 : st2.pd.content = []) :
    (sendLoopGo env enc v f w mp k (sendPhase env st2 cs l ex).1 sts cs2
      ex2).packetsSentThisInterval = st2.packetsSentThisInterval := by
  obtain ⟨p1, p2, p3, p4, p5, p6, p7, p8⟩ :=
    sendPhase_idle env st2 cs l ex h1 h2 h3 h4 h6
  obtain ⟨q1, q2⟩ := sendLoopGo_idle env enc v f w mp k _ sts cs2 ex2
    (by rw [p3, hb]) p4 p5 p6 p7 p8
  rw [q1, p1]

theorem sendLoopGo_after_phase_enc (env : Env) (enc : Encoder) (v f w : Bool)
    (mp k : Nat) (st2 : DistState) (cs l : Bool) (ex : Nat) (sts cs2 : Bool)
    (ex2 : Nat) (hb : st2.node.nodeBag = []) (h1 : st2.node.content = [])
    (h2 : st2.node.lastOctreePacket = [])
    (h3 : st2.node.viewFrustumChanging = false)
    (h4 : st2.node.isShuttingDown = false) (h6 : st2.pd.content = []) :
    (sendLoopGo env enc v f w mp k (sendPhase env st2 cs l ex).1 sts cs2
      ex2).encodeCalls = st2.encodeCalls := by
  obtain ⟨p1, p2, p3, p4, p5, p6, p7, p8⟩ :=
    sendPhase_idle env st2 cs l ex h1 h2 h3 h4 h6
  obtain ⟨q1, q2⟩ := sendLoopGo_idle env enc v f w mp k _ sts cs2 ex2
    (by rw [p3, hb]) p4 p5 p6 p7 p8
  rw [q2, p2]

/-- C5 counterexample: with an empty visit bag and an unchanged view, the
Distributor re-seeds the root and performs one encode call, refuting "zero
encode calls". -/
theorem idle_cycle_encodes :
    idleNode.nodeBag = [] ∧
    (packetDistributor env0 encIdle 5 idleNode pd0 false).encodeCalls = 1 := by
  decide

/-- C5 amended: a Distributor call with an empty visit bag and an unchanged
view re-seeds the bag with the tree root and performs at least one encode
call (not zero) whenever the packet budget is positive; it sends zero
packets provided the outbound packet is empty and equal to the last
transmitted (empty) payload, the view is not flagged changing, the encoder
reports nothing to send, and no special packet is pending. -/
theorem idle_cycle_behavior (env : Env) (enc : Encoder) (fuel : Nat)
    (node : OctreeQueryNode) (pd : OctreePacketData)
    (h1 : node.isShuttingDown = false)
    (h2 : node.nodeBag = [])
    (h3 : node.getCurrentPacketFormatMatches = true)
    (h4 : node.content = [])
    (h5 : node.lastOctreePacket = [])
    (h6 : node.viewFrustumChanging = false)
    (h7 : pd.content = [])
    (h8 : ∀ i, (enc i).bytesOut = [] ∧ (enc i).inserted = [])
    (h9 : env.hasSpecialPacket = false)
    (h10 : 1 ≤ fuel)
    (h11 : 1 ≤ env.serverPacketsPerClientPerInterval) :
    1 ≤ (packetDistributor env enc fuel node pd false).encodeCalls ∧
    (packetDistributor env enc fuel node pd false).packetsSentThisInterval = 0 := by
  have key : ∀ isFS : Bool,
      (sceneRestartStep env ⟨node, pd, 0, 0, 0, [], 0⟩ false
        isFS).packetsSentThisInterval = 0 ∧
      (sceneRestartStep env ⟨node, pd, 0, 0, 0, [], 0⟩ false isFS).encodeCalls = 0 ∧
      (sceneRestartStep env ⟨node, pd, 0, 0, 0, [], 0⟩ false
        isFS).node.nodeBag = [env.root] ∧
      (sceneRestartStep env ⟨node, pd, 0, 0, 0, [], 0⟩ false
        isFS).node.content = [] ∧
      (sceneRestartStep env ⟨node, pd, 0, 0, 0, [], 0⟩ false
        isFS).node.lastOctreePacket = [] ∧
      (sceneRestartStep env ⟨node, pd, 0, 0, 0, [], 0⟩ false
        isFS).node.viewFrustumChanging = false ∧
      (sceneRestartStep env ⟨node, pd, 0, 0, 0, [], 0⟩ false
        isFS).node.isShuttingDown = false ∧
      (sceneRestartStep env ⟨node, pd, 0, 0, 0, [], 0⟩ false
        isFS).pd.content = [] := by
    intro isFS
    unfold sceneRestartStep
    split_ifs <;>
      simp_all [applySend, handlePacketSend_idleForm,
        OctreeQueryNode.shouldSuppressDuplicatePacket,
        OctreeQueryNode.packetIsDuplicate,
        OctreeQueryNode.resetOctreePacket] <;>
      split_ifs <;>
      simp_all [applySend, handlePacketSend_idleForm,
        OctreeQueryNode.shouldSuppressDuplicatePacket,
        OctreeQueryNode.packetIsDuplicate, OctreeQueryNode.resetOctreePacket]
  have hform : formatFlushStep env ⟨node, pd, 0, 0, 0, [], 0⟩ =
      ⟨node, pd, 0, 0, 0, [], 0⟩ := by
    unfold formatFlushStep
    simp [h3]
  have hst1 : packetDistributor env enc fuel node pd false =
      sendLoopBlock env enc fuel
        (sceneRestartStep env ⟨node, pd, 0, 0, 0, [], 0⟩ false
          (computeIsFullScene false node.wantDelta
            node.viewFrustumJustStoppedChanging node.lodChanged))
        false
        (computeIsFullScene false node.wantDelta
          node.viewFrustumJustStoppedChanging node.lodChanged)
        (false && node.wantDelta) := by
    simp only [packetDistributor, h1, Bool.false_eq_true, if_false,
      distAfterPhase1, hform]
  obtain ⟨k1, k2, k3, k4, k5, k6, k7, k8⟩ := key
    (computeIsFullScene false node.wantDelta
      node.viewFrustumJustStoppedChanging node.lodChanged)
  obtain ⟨k, rfl⟩ : ∃ k, fuel = k + 1 := ⟨fuel - 1, by omega⟩
  rw [hst1]
  unfold sendLoopBlock
  have hguard : (sceneRestartStep env ⟨node, pd, 0, 0, 0, [], 0⟩ false
      (computeIsFullScene false node.wantDelta
        node.viewFrustumJustStoppedChanging
        node.lodChanged)).node.nodeBag.isEmpty = false := by
    simp [k3]
  simp only [hguard, Bool.not_false, if_true]
  unfold sendLoopGo
  have hmp : 0 < maxPacketsPerInterval env
      (sceneRestartStep env ⟨node, pd, 0, 0, 0, [], 0⟩ false
        (computeIsFullScene false node.wantDelta
          node.viewFrustumJustStoppedChanging node.lodChanged)).node :=
    maxPackets_pos env _ h11
  simp only [k1, k7, Bool.not_false, Bool.and_true, Bool.true_and, hmp,
    decide_eq_true_eq, if_pos]
  simp only [loopIter, k3, (h8 _).1, (h8 _).2]
  obtain ⟨r1, r2⟩ := postLoop_counters env _ h9
  rw [r1, r2]
  rw [sendLoopGo_after_phase_psti env enc _ _ _ _ k _ _ _ _ _ _ _
      (by simp [(h8 _).2]) (by simp [k4]) (by simp [k5]) (by simp [k6])
      (by simp [k7]) (by simp [k8]),
    sendLoopGo_after_phase_enc env enc _ _ _ _ k _ _ _ _ _ _ _
      (by simp [(h8 _).2]) (by simp [k4]) (by simp [k5]) (by simp [k6])
      (by simp [k7]) (by simp [k8])]
  simp [k1]

/-- C5 amended witness: the concrete idle session. -/
theorem idle_cycle_behavior_witness :
    1 ≤ (packetDistributor env0 encIdle 5 idleNode pd0 false).encodeCalls ∧
    (packetDistributor env0 encIdle 5 idleNode pd0
      false).packetsSentThisInterval = 0 :=
  idle_cycle_behavior env0 encIdle 5 idleNode pd0 (by decide) (by decide)
    (by decide) (by decide) (by decide) (by decide) (by decide)
    (fun _ => ⟨rfl, rfl⟩) (by decide) (by decide) (by decide)

/-! C1: the per-interval packet budget. -/

theorem writeToPacket_statsReady (n : OctreeQueryNode) (b : Bytes) :
    (n.writeToPacket b).statsReady = n.statsReady := rfl

theorem packAppendStep_psti (env : Env) (st : DistState) (ex : Nat) :
    (packAppendStep env st ex).1.packetsSentThisInterval ≤
      st.packetsSentThisInterval + 2 ∧
    (st.packetsSentThisInterval <
        (packAppendStep env st ex).1.packetsSentThisInterval →
      (packAppendStep env st ex).1.node.statsReady = false) := by
  have h2 := handlePacketSend_packetsSent_le_two env st.node
  have hsr := handlePacketSend_statsReady_after env st.node
  simp only [packAppendStep]
  split_ifs <;>
    refine ⟨?_, fun h => ?_⟩ <;>
    simp_all [applySend, OctreeQueryNode.writeToPacket] <;>
    first
      | omega
      | exact hsr (by omega)

theorem sendNowStep_psti (env : Env) (st1 : DistState) (ex1 : Nat) :
    (sendNowStep env st1 ex1).packetsSentThisInterval ≤
      st1.packetsSentThisInterval + 2 ∧
    (st1.node.statsReady = false →
      (sendNowStep env st1 ex1).packetsSentThisInterval ≤
        st1.packetsSentThisInterval + 1) := by
  have h2 := handlePacketSend_packetsSent_le_two env st1.node
  constructor
  · simp only [sendNowStep]
    split_ifs <;> simp_all [applySend] <;> omega
  · intro hsrf
    have h1 := handlePacketSend_packetsSent_le_one env st1.node hsrf
    simp only [sendNowStep]
    split_ifs <;> simp_all [applySend] <;> omega

theorem sendPhase_psti_le (env : Env) (st : DistState) (c l : Bool) (ex : Nat) :
    (sendPhase env st c l ex).1.packetsSentThisInterval ≤
      st.packetsSentThisInterval + 3 := by
  unfold sendPhase
  split
  · show (sendNowStep env (packAppendStep env st ex).1
        (packAppendStep env st ex).2).packetsSentThisInterval ≤
      st.packetsSentThisInterval + 3
    obtain ⟨pa1, pa2⟩ := packAppendStep_psti env st ex
    obtain ⟨sn1, sn2⟩ := sendNowStep_psti env (packAppendStep env st ex).1
      (packAppendStep env st ex).2
    rcases Nat.lt_or_ge st.packetsSentThisInterval
      (packAppendStep env st ex).1.packetsSentThisInterval with hlt | hge
    · have := sn2 (pa2 hlt)
      omega
    · omega
  · show st.packetsSentThisInterval ≤ st.packetsSentThisInterval + 3
    omega

theorem loopIter_psti_le (env : Env) (enc : Encoder) (v f w : Bool)
    (st : DistState) (sts cs : Bool) (ex : Nat) :
    (loopIter env enc v f w st sts cs ex).1.packetsSentThisInterval ≤
      st.packetsSentThisInterval + 3 := by
  rcases hbag : st.node.nodeBag with _ | ⟨a, rest⟩ <;>
    simp only [loopIter, hbag]
  · exact sendPhase_psti_le env st cs false ex
  · exact le_trans (sendPhase_psti_le env _ _ _ _) (by simp)

theorem sendLoopGo_psti_le (env : Env) (enc : Encoder) (v f w : Bool)
    (mp : Nat) :
    ∀ (fuel : Nat) (st : DistState) (sts cs : Bool) (ex : Nat),
      (sendLoopGo env enc v f w mp fuel st sts cs ex).packetsSentThisInterval ≤
        max (mp + 2) st.packetsSentThisInterval := by
  intro fuel
  induction fuel with
  | zero =>
      intro st sts cs ex
      simp [sendLoopGo]
  | succ k ih =>
      intro st sts cs ex
      simp only [sendLoopGo]
      split
      · rename_i hcond
        have hlt : st.packetsSentThisInterval < mp := by
          simp only [Bool.and_eq_true, decide_eq_true_eq] at hcond
          exact hcond.1.2
        have hiter := loopIter_psti_le env enc v f w st sts cs ex
        have hrec := ih (loopIter env enc v f w st sts cs ex).1
          (loopIter env enc v f w st sts cs ex).2.1
          (loopIter env enc v f w st sts cs ex).2.2.1
          (loopIter env enc v f w st sts cs ex).2.2.2
        omega
      · omega

theorem formatFlushStep_psti_le (env : Env) (st : DistState) :
    (formatFlushStep env st).packetsSentThisInterval ≤
      st.packetsSentThisInterval + 2 := by
  have hAll2 : ∀ m, (handlePacketSend env m).packetsSent ≤ 2 :=
    handlePacketSend_packetsSent_le_two env
  unfold formatFlushStep
  split_ifs <;> simp_all [applySend] <;> omega

theorem sceneRestartStep_psti_le (env : Env) (st : DistState) (v i : Bool) :
    (sceneRestartStep env st v i).packetsSentThisInterval ≤
      st.packetsSentThisInterval + 2 := by
  have hAll2 : ∀ m, (handlePacketSend env m).packetsSent ≤ 2 :=
    handlePacketSend_packetsSent_le_two env
  unfold sceneRestartStep
  split_ifs <;> simp_all [applySend] <;>
    first
      | omega
      | (split_ifs <;> simp_all [applySend] <;> omega)

theorem sceneRestartStep_maxPPS (env : Env) (st : DistState) (v i : Bool) :
    (sceneRestartStep env st v i).node.maxOctreePacketsPerSecond =
      st.node.maxOctreePacketsPerSecond := by
  have hp : ∀ m : OctreeQueryNode,
      (handlePacketSend env m).node.maxOctreePacketsPerSecond =
        m.maxOctreePacketsPerSecond :=
    fun m => (handlePacketSend_preserves env m).2.1
  unfold sceneRestartStep
  split_ifs <;> simp_all [applySend]
  all_goals (split_ifs <;> simp_all [applySend])

theorem postLoop_psti_le (env : Env) (st : DistState) :
    (postLoop env st).packetsSentThisInterval ≤
      st.packetsSentThisInterval + 1 := by
  unfold postLoop
  split_ifs <;> simp_all
  all_goals (split_ifs <;> simp_all)

/-- C1 counterexample: a session with per-interval budget 1 (client asks
for 60 packets per second at 60 intervals per second, server cap 1) sends
two octree payload datagrams in one Distributor call — the final iteration
performs an overflow flush and then the regular send — exceeding the
claimed budget-plus-one-special bound with no special packet pending. -/
theorem budget_exceeded :
    maxPacketsPerInterval env0 overflowNode = 1 ∧
    env0.hasSpecialPacket = false ∧
    octreePayloadCount (packetDistributor env0 encSmall 5 overflowNode pd0
      false).events = 2 := by
  decide

/-- C1 amended: one Distributor call sends at most
`max(maxPacketsPerInterval + 2, 4) + 1` datagrams, where
`maxPacketsPerInterval = min(max(1, clientPPS / intervalsPerSecond),
serverPacketsPerClientPerInterval)`: the loop is entered only below the
budget but its final iteration can add up to 3 packets (an overflow flush
plus a separated stats packet plus the regular send), up to 4 pre-loop
flush packets are not budget-gated, and one special packet may follow. -/
theorem packets_per_interval_bound (env : Env) (enc : Encoder) (fuel : Nat)
    (node : OctreeQueryNode) (pd : OctreePacketData) (vfc : Bool) :
    (packetDistributor env enc fuel node pd vfc).packetsSentThisInterval ≤
      max (maxPacketsPerInterval env node + 2) 4 + 1 := by
  by_cases hs : node.isShuttingDown
  · simp [packetDistributor, hs]
  · simp only [packetDistributor, hs, Bool.false_eq_true, if_false]
    have hphase1 : (distAfterPhase1 env node pd
        vfc).packetsSentThisInterval ≤ 4 := by
      simp only [distAfterPhase1]
      have h1 := formatFlushStep_psti_le env ⟨node, pd, 0, 0, 0, [], 0⟩
      have h2 := sceneRestartStep_psti_le env
        (formatFlushStep env ⟨node, pd, 0, 0, 0, [], 0⟩) vfc
        (computeIsFullScene vfc node.wantDelta
          node.viewFrustumJustStoppedChanging node.lodChanged)
      simp only [] at h1
      omega
    have hmaxeq : maxPacketsPerInterval env
        (distAfterPhase1 env node pd vfc).node =
        maxPacketsPerInterval env node := by
      have h1 := sceneRestartStep_maxPPS env
        (formatFlushStep env ⟨node, pd, 0, 0, 0, [], 0⟩) vfc
        (computeIsFullScene vfc node.wantDelta
          node.viewFrustumJustStoppedChanging node.lodChanged)
      have h2 := (formatFlushStep_node env ⟨node, pd, 0, 0, 0, [], 0⟩).2.1
      simp only [distAfterPhase1, maxPacketsPerInterval, h1, h2]
    simp only [sendLoopBlock]
    split
    · have hloop := sendLoopGo_psti_le env enc vfc
        (computeIsFullScene vfc node.wantDelta
          node.viewFrustumJustStoppedChanging node.lodChanged)
        (vfc && node.wantDelta)
        (maxPacketsPerInterval env (distAfterPhase1 env node pd vfc).node)
        fuel (distAfterPhase1 env node pd vfc) true false 0
      have hpost := postLoop_psti_le env
        (sendLoopGo env enc vfc
          (computeIsFullScene vfc node.wantDelta
            node.viewFrustumJustStoppedChanging node.lodChanged)
          (vfc && node.wantDelta)
          (maxPacketsPerInterval env (distAfterPhase1 env node pd vfc).node)
          fuel (distAfterPhase1 env node pd vfc) true false 0)
      omega
    · omega

end Hifi
